import Mathlib

/-!
# RCLF simulation engine: shallow embedding and verification

This file embeds the core of the RCLF (fluoride-removal crystallization)
simulation engine — `ChemistryEngine`, the financial/rolling-window part of
`Simulation.updateUI`, and the `PhysicsEngine`/`Particle` population model —
and proves properties of the embedded code.

Embedding conventions:
* JS numbers are modelled as exact rationals (`ℚ`); the properties verified
  here are control-flow and algebraic identities that do not hinge on binary
  floating-point rounding.
* Every call to `Math.random()` in the source is modelled as an explicit
  input parameter (one per draw), so the embedded functions are pure.
* `Math.sin` (used only for the horizontal wobble of fluid particles, which
  no property below depends on) is modelled as an arbitrary function
  parameter `sinF : ℚ → ℚ`.
* The repository contains two near-duplicate engine files
  (`simulation.js` and the unnamed variant).  They agree verbatim on
  `ChemistryEngine.calculateReaction` and on the `PhysicsEngine` update loop;
  they differ in the `FINANCIAL` constants (`CAPEX`, `OPEX_FIXED_DAY`), in the
  daily snapshot record (the richer variant also stores `savings`), in the
  `Particle` state machine (the richer variant has growth and a `sedimenting`
  flag), and in the rolling-window/ROI part of `updateUI`.  The richer
  variant is embedded here; where a property depends only on the shared code
  this is noted.
-/

namespace RCLF

/-! ## CONFIG constants (richer variant; `simulation.js` differs only in
`CAPEX = 1000000` and `OPEX_FIXED_DAY = 1500`) -/

def F_TO_CAF2 : ℚ := 78 / 38

def F_TO_CACL2 : ℚ := 111 / 38

def PRICE_METALSPAR : ℚ := 3000

def PRICE_ACIDSPAR : ℚ := 5500

def COST_CACL2 : ℚ := 1100

def AVOIDED_COST_LIME_SLUDGE : ℚ := 7237.5

def CAPEX : ℚ := 15000000

def OPEX_FIXED_DAY : ℚ := 4800

def TARGET_PH : ℚ := 8.2

def GRAVITY : ℚ := 0.5

def DRAG_COEFFICIENT : ℚ := 0.1

/-! ## ChemistryEngine state -/

/-- One entry of `this.history`: `{ day, revenue, savings, cost }`. -/
structure Snapshot where
  day : ℤ
  revenue : ℚ
  savings : ℚ
  cost : ℚ
deriving DecidableEq

instance : Inhabited Snapshot := ⟨⟨0, 0, 0, 0⟩⟩

/-- The mutable fields of `ChemistryEngine`. -/
structure ChemState where
  currentPH : ℚ
  totalFInput : ℚ
  totalFluoriteOutput : ℚ
  totalCaCl2Used : ℚ
  totalRevenue : ℚ
  totalVariableCost : ℚ
  totalFixedCost : ℚ
  totalSavings : ℚ
  simTimeMs : ℚ
  history : List Snapshot
  lastSnapshotDay : ℤ
  purityMix : ℚ
deriving DecidableEq

/-- The `ChemistryEngine` constructor. -/
def initChem : ChemState :=
  { currentPH := 7
    totalFInput := 0
    totalFluoriteOutput := 0
    totalCaCl2Used := 0
    totalRevenue := 0
    totalVariableCost := 0
    totalFixedCost := 0
    totalSavings := 0
    simTimeMs := 0
    history := []
    lastSnapshotDay := -1
    purityMix := 0 }

/-- `ChemistryEngine.reset()`: overwrites every field with its initial value. -/
def ChemState.reset (s : ChemState) : ChemState :=
  { s with
    currentPH := 7
    totalFInput := 0
    totalFluoriteOutput := 0
    totalCaCl2Used := 0
    totalRevenue := 0
    totalVariableCost := 0
    totalSavings := 0
    simTimeMs := 0
    totalFixedCost := 0
    history := []
    lastSnapshotDay := -1
    purityMix := 0 }

/-- The record returned by `calculateReaction`. -/
structure ReactionResult where
  massF : ℚ
  massFluorite : ℚ
  massCaCl2 : ℚ
deriving DecidableEq

/-- `ChemistryEngine.calculateReaction(flowRate, ppmF, dt, speed)`.
`rand` is the value drawn by `Math.random()` for the pH drift.
The history/`lastSnapshotDay` update is a direct flattening of
`if (currentDay > lastSnapshotDay) { history.push(...); lastSnapshotDay = currentDay;
if (history.length > 40) history.shift(); }`. -/
def calculateReaction (flowRate ppmF dt speed rand : ℚ) (s : ChemState) :
    ChemState × ReactionResult :=
  let effectiveDt := (dt / 1000) * speed
  let timeMultiplier : ℚ := 4 * 3600
  let massF := (flowRate * ppmF / 3600) * effectiveDt * timeMultiplier
  let massFluorite := massF * F_TO_CAF2
  let massCaCl2 := massF * F_TO_CACL2
  let totalFInput := s.totalFInput + massF
  let totalFluoriteOutput := s.totalFluoriteOutput + massFluorite
  let totalCaCl2Used := s.totalCaCl2Used + massCaCl2
  let tonsFluorite := massFluorite / 1000000
  let tonsCaCl2 := massCaCl2 / 1000000
  let acidPercent := s.purityMix / 100
  let metalPercent := 1 - acidPercent
  let weightedPrice := acidPercent * PRICE_ACIDSPAR + metalPercent * PRICE_METALSPAR
  let totalRevenue := s.totalRevenue + tonsFluorite * weightedPrice
  let totalVariableCost := s.totalVariableCost + tonsCaCl2 * COST_CACL2
  let tonsF := massF / 1000000
  let totalSavings := s.totalSavings + tonsF * AVOIDED_COST_LIME_SLUDGE
  let simTimeMs := s.simTimeMs + effectiveDt * timeMultiplier * 1000
  let totalDays := simTimeMs / (1000 * 24 * 3600)
  let totalFixedCost := totalDays * OPEX_FIXED_DAY
  let currentDay : ℤ := ⌊simTimeMs / (1000 * 24 * 3600)⌋
  let pushed := s.history ++
    [{ day := currentDay
       revenue := totalRevenue
       savings := totalSavings
       cost := totalVariableCost + totalFixedCost }]
  let history :=
    if s.lastSnapshotDay < currentDay then
      (if 40 < pushed.length then pushed.tail else pushed)
    else s.history
  let lastSnapshotDay :=
    if s.lastSnapshotDay < currentDay then currentDay else s.lastSnapshotDay
  let drift := (rand - 0.5) * 0.02
  let currentPH := s.currentPH + (TARGET_PH - s.currentPH) * 0.1 + drift
  (⟨currentPH, totalFInput, totalFluoriteOutput, totalCaCl2Used, totalRevenue,
    totalVariableCost, totalFixedCost, totalSavings, simTimeMs, history,
    lastSnapshotDay, s.purityMix⟩,
   ⟨massF, massFluorite, massCaCl2⟩)

/-- One tick of the chemistry engine, keeping only the state.  The call
arguments are bundled as `(flowRate, ppmF, dt, speed, rand)`. -/
def chemStep (a : ℚ × ℚ × ℚ × ℚ × ℚ) (s : ChemState) : ChemState :=
  (calculateReaction a.1 a.2.1 a.2.2.1 a.2.2.2.1 a.2.2.2.2 s).1

/-- A sequence of `calculateReaction` calls, in order. -/
def runCalls (calls : List (ℚ × ℚ × ℚ × ℚ × ℚ)) (s : ChemState) : ChemState :=
  calls.foldl (fun s a => chemStep a s) s

/-- The day values of the snapshots appended along a run (a snapshot is
appended exactly when `lastSnapshotDay` changes, and the appended entry's
day is the new `lastSnapshotDay`). -/
def appendedDays : List (ℚ × ℚ × ℚ × ℚ × ℚ) → ChemState → List ℤ
  | [], _ => []
  | a :: rest, s =>
    let s1 := chemStep a s
    (if s.lastSnapshotDay < s1.lastSnapshotDay then [s1.lastSnapshotDay] else []) ++
      appendedDays rest s1

/-! ## `Simulation.updateUI` — rolling-window financials and ROI
(richer variant, the one whose ROI is derived from the windowed profit). -/

/-- `totalVariableCost + (totalFixedCost || 0)` (the `|| 0` is a JS
falsiness guard that is the identity on numbers). -/
def totalCostOf (s : ChemState) : ℚ := s.totalVariableCost + s.totalFixedCost

/-- `netProfit = (totalRevenue - totalCost) + totalSavings`. -/
def netProfitOf (s : ChemState) : ℚ := s.totalRevenue - totalCostOf s + s.totalSavings

/-- `totalDays = simTimeMs / (1000 * 24 * 3600)`. -/
def totalDaysOf (s : ChemState) : ℚ := s.simTimeMs / (1000 * 24 * 3600)

/-- `history[history.length - 1]` (only read when the history is nonempty). -/
def windowNow (s : ChemState) : Snapshot := s.history.getLastD default

/-- `history.find(h => h.day >= now.day - 30) || history[0]`. -/
def windowPrev (s : ChemState) : Snapshot :=
  ((s.history.find? fun h => decide ((windowNow s).day - 30 ≤ h.day)).getD
    (s.history.headD default))

/-- `windowDays = now.day - prev.day`, the actual day span of the window. -/
def windowSpan (s : ChemState) : ℤ := (windowNow s).day - (windowPrev s).day

/-- The `(rev30, pro30)` pair computed by `updateUI`: both are initialized
to `0`; if the history has more than 2 entries and the span is positive the
deltas are rescaled by `30 / windowDays`; otherwise, if `totalDays > 0.01`,
the all-time averages are extrapolated to 30 days. -/
def window30 (s : ChemState) : ℚ × ℚ :=
  if 2 < s.history.length then
    let now := windowNow s
    let prev := windowPrev s
    let windowDays := windowSpan s
    if 0 < windowDays then
      ((now.revenue - prev.revenue) * (30 / (windowDays : ℚ)),
       ((now.revenue - now.cost + now.savings) -
         (prev.revenue - prev.cost + prev.savings)) * (30 / (windowDays : ℚ)))
    else (0, 0)
  else if (0.01 : ℚ) < totalDaysOf s then
    ((s.totalRevenue / totalDaysOf s) * 30, (netProfitOf s / totalDaysOf s) * 30)
  else (0, 0)

/-- `annualProfit = pro30 * 12; roi = (annualProfit / CAPEX) * 100`. -/
def roiOf (s : ChemState) : ℚ :=
  let annualProfit := (window30 s).2 * 12
  annualProfit / CAPEX * 100

/-! ## PhysicsEngine and Particle -/

inductive PType where
  | crystal
  | fluid
deriving DecidableEq

/-- The mutable fields of a `Particle` (the `color` string, a pure function
of `type` used only for drawing, is omitted). -/
structure Particle where
  x : ℚ
  y : ℚ
  size : ℚ
  type : PType
  vx : ℚ
  vy : ℚ
  alpha : ℚ
  sedimenting : Bool
deriving DecidableEq

/-- `Particle.update(dt, fluidVelocity, centerY)` (richer variant: crystal
growth, forced one-way transition to `sedimenting`, floored descent speed).
`dt` is accepted and unused, exactly as in the source.  `sinF` stands for
`Math.sin`. -/
def Particle.update (p : Particle) (dt fluidVelocity centerY : ℚ)
    (sinF : ℚ → ℚ) : Particle :=
  match p.type with
  | PType.crystal =>
    let size :=
      if p.sedimenting = false ∧ p.vy < 0 ∧ p.size < 6 then p.size + 0.015
      else p.size
    let drag := (fluidVelocity * 0.12) * (1 / size)
    let grav := 0.05 * size
    let sedimenting :=
      if p.y < centerY - 130 ∨ 6 ≤ size then true else p.sedimenting
    let vy :=
      if sedimenting then
        let vy1 := p.vy + grav * 1.5
        if vy1 < 1.5 then (1.5 : ℚ) else vy1
      else p.vy + (grav - drag)
    { p with
      size := size
      sedimenting := sedimenting
      vy := vy
      x := p.x + p.vx
      y := p.y + vy }
  | PType.fluid =>
    let y := p.y - fluidVelocity * 2
    { p with
      y := y
      x := p.x + sinF (y * 0.05) * 2
      alpha := p.alpha - 0.01 }

/-- `Particle.isOutOfBounds(centerY)`. -/
def Particle.isOutOfBounds (p : Particle) (centerY : ℚ) : Bool :=
  decide (centerY + 220 < p.y) || decide (p.y < centerY - 280)

/-- `Particle.isDead()`. -/
def Particle.isDead (p : Particle) : Bool :=
  decide (p.alpha ≤ 0)

/-- The `particles.forEach((p, i) => { p.update(...); if (...) splice(i, 1) })`
pass of `PhysicsEngine.updateParticles`, transcribed index-by-index:
`forEach` visits indices `0, 1, 2, …` of the *current* array (at most
`length₀` of them, whence the fuel), a `splice(i, 1)` removes the entry at
the visited index in place, and the visit index then advances to `i + 1`
regardless of the removal. -/
def cullPassAux (dt fv cy : ℚ) (sinF : ℚ → ℚ) :
    ℕ → List Particle → ℕ → List Particle
  | 0, ps, _ => ps
  | fuel + 1, ps, k =>
    if h : k < ps.length then
      let p1 := (ps.get ⟨k, h⟩).update dt fv cy sinF
      let ps1 := ps.set k p1
      if p1.isOutOfBounds cy || p1.isDead then
        cullPassAux dt fv cy sinF fuel (ps1.eraseIdx k) (k + 1)
      else
        cullPassAux dt fv cy sinF fuel ps1 (k + 1)
    else ps

/-- The advance-and-cull pass over the particle population.  The fuel
`ps.length` bounds the iteration count: the index grows by one each step and
the length never grows, so after `ps.length` steps the index is past the end. -/
def cullPass (dt fv cy : ℚ) (sinF : ℚ → ℚ) (ps : List Particle) : List Particle :=
  cullPassAux dt fv cy sinF ps.length ps 0

/-- `PhysicsEngine.spawnParticle(centerX, centerY)` together with the
`Particle` constructor; `rX, rType, rSize, rVx, rVy` are the five
`Math.random()` draws in source order. -/
def spawnParticle (centerX centerY rX rType rSize rVx rVy : ℚ) : Particle :=
  let x := centerX + (rX - 0.5) * 120
  let y := centerY + 180
  let type := if (0.3 : ℚ) < rType then PType.crystal else PType.fluid
  let startSize := if type = PType.crystal then (1 : ℚ) else 1 + rSize * 3
  { x := x
    y := y
    size := startSize
    type := type
    vx := (rVx - 0.5) * 1
    vy := if type = PType.crystal then rVy * 2 else -(rVy * 3)
    alpha := 1
    sedimenting := false }

/-- `PhysicsEngine.updateParticles(dt, speed, flowRate, centerX, centerY)`:
the cull pass followed by the probabilistic spawn (`rSpawn` is the
`Math.random()` draw compared against `0.3 * speed`). -/
def updateParticles (dt speed flowRate centerX centerY : ℚ) (sinF : ℚ → ℚ)
    (rSpawn rX rType rSize rVx rVy : ℚ) (ps : List Particle) : List Particle :=
  let fluidVelocity := (flowRate / 100) * speed
  let ps1 := cullPass dt fluidVelocity centerY sinF ps
  if rSpawn < 0.3 * speed then
    ps1 ++ [spawnParticle centerX centerY rX rType rSize rVx rVy]
  else ps1

/-- A sequence of `Particle.update` calls with per-call
`(dt, fluidVelocity, centerY)` arguments. -/
def applyUpdates (args : List (ℚ × ℚ × ℚ)) (sinF : ℚ → ℚ) (p : Particle) : Particle :=
  args.foldl (fun q a => q.update a.1 a.2.1 a.2.2 sinF) p

/-! ## Invariant predicates and concrete test states -/

/-- The stoichiometric coupling of the running totals: each output total is
the fluoride-input total times the corresponding fixed mass ratio. -/
def StoichInv (s : ChemState) : Prop :=
  s.totalFluoriteOutput = s.totalFInput * (78 / 38) ∧
  s.totalCaCl2Used = s.totalFInput * (111 / 38)

/-- The history bookkeeping invariant: bounded length, days strictly
increasing along the list, and every recorded day at most `lastSnapshotDay`
(the linking fact that makes appends strictly increasing). -/
def HistInv (s : ChemState) : Prop :=
  s.history.length ≤ 40 ∧
  s.history.Pairwise (fun a b => a.day < b.day) ∧
  ∀ e ∈ s.history, e.day ≤ s.lastSnapshotDay

/-- The state after one `calculateReaction(450, 50, 6000, 1)` tick from the
initial state (`Math.random() = 1/2`, so zero pH drift): exactly one
simulated day elapses and a first snapshot is recorded. -/
def tick1 : ChemState := (calculateReaction 450 50 6000 1 (1/2) initChem).1

/-- A state whose three snapshots have days 0, 1, 40: the reference search
for day ≥ 40 − 30 lands on the latest snapshot itself, a zero-day span. -/
def stateSpan0 : ChemState :=
  { currentPH := 7
    totalFInput := 0
    totalFluoriteOutput := 0
    totalCaCl2Used := 0
    totalRevenue := 500
    totalVariableCost := 100
    totalFixedCost := 50
    totalSavings := 20
    simTimeMs := 3456000000
    history := [⟨0, 10, 1, 5⟩, ⟨1, 100, 10, 50⟩, ⟨40, 500, 20, 150⟩]
    lastSnapshotDay := 40
    purityMix := 0 }

/-- A state whose three snapshots have days 1, 2, 3: the reference search
lands on day 1, a two-day span. -/
def stateSpan2 : ChemState :=
  { currentPH := 7
    totalFInput := 0
    totalFluoriteOutput := 0
    totalCaCl2Used := 0
    totalRevenue := 300
    totalVariableCost := 60
    totalFixedCost := 30
    totalSavings := 12
    simTimeMs := 259200000
    history := [⟨1, 100, 4, 20⟩, ⟨2, 200, 8, 40⟩, ⟨3, 300, 12, 60⟩]
    lastSnapshotDay := 3
    purityMix := 0 }

/-- A state with an empty history after one simulated day: the rolling
window must fall back to the linear extrapolation path. -/
def stateNoHist : ChemState :=
  { currentPH := 7
    totalFInput := 0
    totalFluoriteOutput := 0
    totalCaCl2Used := 0
    totalRevenue := 3000
    totalVariableCost := 500
    totalFixedCost := 4800
    totalSavings := 700
    simTimeMs := 86400000
    history := []
    lastSnapshotDay := -1
    purityMix := 0 }

/-- A fluid particle one tick away from depletion (`alpha = 0.01`). -/
def cullP0 : Particle :=
  { x := 0, y := 0, size := 1, type := PType.fluid, vx := 0, vy := 0
    alpha := 1 / 100, sedimenting := false }

/-- A second fluid particle also one tick away from depletion. -/
def cullP1 : Particle :=
  { x := 40, y := 0, size := 1, type := PType.fluid, vx := 0, vy := 0
    alpha := 1 / 100, sedimenting := false }

/-- A crystal particle that has just reached the maximum size 6 while its
`sedimenting` flag is still unset. -/
def crystalMax : Particle :=
  { x := 0, y := 0, size := 6, type := PType.crystal, vx := 0, vy := -1
    alpha := 1, sedimenting := false }

/-- The initial state with the pH started above the 8.2 target. -/
def chemHighPH : ChemState := { initChem with currentPH := 9 }

/-! ## Helper lemmas -/

/-- With the `Math.random()` draw fixed to `1/2` the pH drift term vanishes
and one tick applies exactly the first-order relaxation toward 8.2. -/
theorem ph_next_eq (flowRate ppmF dt speed : ℚ) (s : ChemState) :
    ((calculateReaction flowRate ppmF dt speed (1/2) s).1).currentPH
      = s.currentPH + ((8.2 : ℚ) - s.currentPH) * (1/10) := by
  show s.currentPH + (TARGET_PH - s.currentPH) * 0.1 + ((1:ℚ)/2 - 0.5) * 0.02 = _
  rw [TARGET_PH]; ring

/-- `Particle.update` never changes the particle's type. -/
theorem update_type (p : Particle) (dt fv cy : ℚ) (f : ℚ → ℚ) :
    (p.update dt fv cy f).type = p.type := by
  cases hp : p.type <;> simp [Particle.update, hp]

/-- `Particle.update` never decreases the particle's size. -/
theorem update_size_mono (p : Particle) (dt fv cy : ℚ) (f : ℚ → ℚ) :
    p.size ≤ (p.update dt fv cy f).size := by
  cases hp : p.type <;> simp [Particle.update, hp]
  split <;> norm_num

/-- For a crystal particle, once the `sedimenting` flag is set or the size
has reached 6 the next update leaves the flag set. -/
theorem update_sed_absorbing (p : Particle) (dt fv cy : ℚ) (f : ℚ → ℚ)
    (htype : p.type = PType.crystal)
    (h : p.sedimenting = true ∨ 6 ≤ p.size) :
    (p.update dt fv cy f).sedimenting = true := by
  simp only [Particle.update, htype]
  rcases h with h | h
  · simp [h]
  · have hg : (if p.sedimenting = false ∧ p.vy < 0 ∧ p.size < 6
        then p.size + 0.015 else p.size) = p.size :=
      if_neg (fun hc => absurd hc.2.2 (not_lt.mpr h))
    simp [hg, h]

/-- Along any sequence of updates a sedimenting crystal stays a sedimenting
crystal and its size never decreases. -/
theorem applyUpdates_sed (args : List (ℚ × ℚ × ℚ)) (f : ℚ → ℚ) :
    ∀ p : Particle, p.type = PType.crystal → p.sedimenting = true →
      (applyUpdates args f p).sedimenting = true ∧
      (applyUpdates args f p).type = PType.crystal ∧
      p.size ≤ (applyUpdates args f p).size := by
  induction args with
  | nil => exact fun p h1 h2 => ⟨h2, h1, le_refl _⟩
  | cons a rest ih =>
    intro p h1 h2
    have hq := ih (p.update a.1 a.2.1 a.2.2 f)
      (by rw [update_type]; exact h1)
      (update_sed_absorbing p a.1 a.2.1 a.2.2 f h1 (Or.inl h2))
    exact ⟨hq.1, hq.2.1, le_trans (update_size_mono p a.1 a.2.1 a.2.2 f) hq.2.2⟩

/-- One `calculateReaction` call either leaves `history` and
`lastSnapshotDay` unchanged, or strictly increases `lastSnapshotDay` and
appends one snapshot carrying the new day (shifting off the oldest entry if
the capacity 40 is exceeded). -/
theorem calc_hist_char (flowRate ppmF dt speed rand : ℚ) (s : ChemState) :
    ((calculateReaction flowRate ppmF dt speed rand s).1.lastSnapshotDay
        = s.lastSnapshotDay ∧
     (calculateReaction flowRate ppmF dt speed rand s).1.history = s.history) ∨
    (s.lastSnapshotDay < (calculateReaction flowRate ppmF dt speed rand s).1.lastSnapshotDay ∧
     ∃ e : Snapshot,
       e.day = (calculateReaction flowRate ppmF dt speed rand s).1.lastSnapshotDay ∧
       (calculateReaction flowRate ppmF dt speed rand s).1.history
         = (if 40 < (s.history ++ [e]).length then (s.history ++ [e]).tail
            else s.history ++ [e])) := by
  simp only [calculateReaction]
  by_cases h : s.lastSnapshotDay
      < ⌊(s.simTimeMs + dt / 1000 * speed * (4 * 3600) * 1000) / (1000 * 24 * 3600)⌋
  · right
    rw [if_pos h, if_pos h]
    exact ⟨h, _, rfl, rfl⟩
  · left
    rw [if_neg h, if_neg h]
    exact ⟨rfl, rfl⟩

/-- `lastSnapshotDay` never decreases across a `calculateReaction` call. -/
theorem calc_last_mono (flowRate ppmF dt speed rand : ℚ) (s : ChemState) :
    s.lastSnapshotDay ≤ (calculateReaction flowRate ppmF dt speed rand s).1.lastSnapshotDay := by
  rcases calc_hist_char flowRate ppmF dt speed rand s with ⟨hL, _⟩ | ⟨hlt, _⟩
  · exact le_of_eq hL.symm
  · exact hlt.le

/-- The history bookkeeping invariant is preserved by every
`calculateReaction` call, for arbitrary inputs. -/
theorem histInv_step (flowRate ppmF dt speed rand : ℚ) (s : ChemState)
    (h : HistInv s) : HistInv (calculateReaction flowRate ppmF dt speed rand s).1 := by
  obtain ⟨hlen, hpw, hbd⟩ := h
  rcases calc_hist_char flowRate ppmF dt speed rand s with ⟨hL, hH⟩ | ⟨hlt, e, hday, hH⟩
  · exact ⟨by rw [hH]; exact hlen, by rw [hH]; exact hpw,
      by rw [hH, hL]; exact hbd⟩
  · have hb2 : ∀ x ∈ s.history ++ [e],
        x.day ≤ (calculateReaction flowRate ppmF dt speed rand s).1.lastSnapshotDay := by
      intro x hx
      rcases List.mem_append.mp hx with hx | hx
      · exact le_of_lt (lt_of_le_of_lt (hbd x hx) hlt)
      · rw [List.mem_singleton] at hx
        subst hx
        rw [hday]
    have hpw2 : (s.history ++ [e]).Pairwise (fun a b => a.day < b.day) := by
      rw [List.pairwise_append]
      refine ⟨hpw, List.pairwise_singleton _ _, ?_⟩
      intro x hx y hy
      rw [List.mem_singleton] at hy
      subst hy
      rw [hday]
      exact lt_of_le_of_lt (hbd x hx) hlt
    refine ⟨?_, ?_, ?_⟩
    · rw [hH]
      split
      · rw [List.length_tail, List.length_append]
        simp
        omega
      · rename_i hno
        rw [not_lt] at hno
        exact hno
    · rw [hH]
      split
      · exact List.Pairwise.sublist (List.tail_sublist _) hpw2
      · exact hpw2
    · rw [hH]
      intro x hx
      split at hx
      · exact hb2 x (List.mem_of_mem_tail hx)
      · exact hb2 x hx

/-- The history bookkeeping invariant is preserved by every run. -/
theorem histInv_run (calls : List (ℚ × ℚ × ℚ × ℚ × ℚ)) :
    ∀ s, HistInv s → HistInv (runCalls calls s) := by
  induction calls with
  | nil => exact fun s h => h
  | cons a rest ih =>
    intro s h
    exact ih _ (histInv_step a.1 a.2.1 a.2.2.1 a.2.2.2.1 a.2.2.2.2 s h)

/-- The days of the snapshots appended along any run are all above the
starting `lastSnapshotDay` and strictly increasing: no day value is ever
appended twice. -/
theorem appendedDays_sorted (calls : List (ℚ × ℚ × ℚ × ℚ × ℚ)) :
    ∀ s : ChemState,
      (∀ d ∈ appendedDays calls s, s.lastSnapshotDay < d) ∧
      (appendedDays calls s).Pairwise (fun a b : ℤ => a < b) := by
  induction calls with
  | nil => exact fun s => ⟨by simp [appendedDays], by simp [appendedDays]⟩
  | cons a rest ih =>
    intro s
    have hmono : s.lastSnapshotDay ≤ (chemStep a s).lastSnapshotDay :=
      calc_last_mono a.1 a.2.1 a.2.2.1 a.2.2.2.1 a.2.2.2.2 s
    have h1 := ih (chemStep a s)
    by_cases h : s.lastSnapshotDay < (chemStep a s).lastSnapshotDay
    · constructor
      · intro d hd
        simp only [appendedDays, if_pos h, List.singleton_append, List.mem_cons] at hd
        rcases hd with hd | hd
        · rw [hd]; exact h
        · exact lt_trans h (h1.1 d hd)
      · simp only [appendedDays, if_pos h, List.singleton_append]
        rw [List.pairwise_cons]
        exact ⟨h1.1, h1.2⟩
    · have heq : (chemStep a s).lastSnapshotDay = s.lastSnapshotDay :=
        le_antisymm (not_lt.mp h) hmono
      constructor
      · intro d hd
        simp only [appendedDays, if_neg h, List.nil_append] at hd
        have hgt := h1.1 d hd
        rw [heq] at hgt
        exact hgt
      · simp only [appendedDays, if_neg h, List.nil_append]
        exact h1.2

/-! ## Claim theorems -/

/-- C1 (counterexample): the claim says the reported return-on-investment
percentage equals `(pro30 × (365/30)) / CAPEX × 100`.  In the state reached
by one `calculateReaction(450, 50, 6000, 1)` tick from the initial state the
window profit `pro30` is computed (nonzero) and the ROI produced by the code
differs from the claimed formula, because the code annualizes by the factor
12, not 365/30. -/
theorem C1_counterexample :
    roiOf tick1 ≠ (window30 tick1).2 * (365 / 30) / CAPEX * 100 := by
  norm_num [roiOf, window30, tick1, calculateReaction, initChem, totalDaysOf,
    netProfitOf, totalCostOf, windowNow, windowPrev, windowSpan, CAPEX,
    OPEX_FIXED_DAY, AVOIDED_COST_LIME_SLUDGE, PRICE_METALSPAR, PRICE_ACIDSPAR,
    COST_CACL2, F_TO_CAF2, F_TO_CACL2, TARGET_PH]

/-- C1 (amended): for every state, the reported return-on-investment
percentage equals the rolling-window profit `pro30` annualized by the factor
12 (twelve 30-day months, i.e. a 360-day year), divided by the
capital-expenditure constant CAPEX = 15000000, times 100. -/
theorem C1_roi_annualized_by_12 (s : ChemState) :
    roiOf s = (window30 s).2 * 12 / 15000000 * 100 := rfl

/-- C2: for flowRate = 450 and concentration 50, a single `calculateReaction`
call with real delta `dt` (ms) and speed `speed` returns exactly
`massF = (450 × 50 / 3600) × ((dt/1000) × speed) × (4 × 3600)`,
`massFluorite = massF × 78/38` and `massCaCl2 = massF × 111/38`, in exact
rational arithmetic, from any state and for any random draw. -/
theorem C2_golden_tick_masses (dt speed rand : ℚ) (s : ChemState) :
    (calculateReaction 450 50 dt speed rand s).2 =
      ⟨(450 * 50 / 3600) * ((dt / 1000) * speed) * (4 * 3600),
       ((450 * 50 / 3600) * ((dt / 1000) * speed) * (4 * 3600)) * (78 / 38),
       ((450 * 50 / 3600) * ((dt / 1000) * speed) * (4 * 3600)) * (111 / 38)⟩ := rfl

/-- C3: the invariant `totalFluoriteOutput = totalFInput × 78/38` and
`totalCaCl2Used = totalFInput × 111/38` holds in the initial state, is
preserved by every `calculateReaction` call for arbitrary inputs, and is
restored by `reset()` (the two ratio constants `F_TO_CAF2` and `F_TO_CACL2`
are definitions, mutated by no operation). -/
theorem C3_stoichiometric_invariant :
    StoichInv initChem ∧
    (∀ flowRate ppmF dt speed rand s, StoichInv s →
      StoichInv (calculateReaction flowRate ppmF dt speed rand s).1) ∧
    (∀ s : ChemState, StoichInv s.reset) := by
  refine ⟨⟨by norm_num [initChem], by norm_num [initChem]⟩, ?_,
    fun s => ⟨by norm_num [ChemState.reset], by norm_num [ChemState.reset]⟩⟩
  rintro flowRate ppmF dt speed rand s ⟨h1, h2⟩
  constructor
  · show s.totalFluoriteOutput + _ = (s.totalFInput + _) * (78 / 38)
    rw [h1, F_TO_CAF2]; ring
  · show s.totalCaCl2Used + _ = (s.totalFInput + _) * (111 / 38)
    rw [h2, F_TO_CACL2]; ring

/-- C3 (witness): the invariant holds after one concrete call from the
initial state. -/
theorem C3_stoichiometric_invariant_witness :
    StoichInv (calculateReaction 450 50 1000 1 (1/2) initChem).1 :=
  C3_stoichiometric_invariant.2.1 450 50 1000 1 (1/2) initChem
    ⟨by norm_num [initChem], by norm_num [initChem]⟩

/-- C4: evaluation of the cull pass at a failing input.  The population
holds two fluid particles `cullP0, cullP1`, both with `alpha = 0.01`, so
both are depleted (`isDead`) after one advance.  The claim says every live
particle is advanced exactly once and every particle dead after its advance
is removed in the same call.  The code's `forEach` + `splice(i, 1)` pass
instead removes `cullP0` and then skips `cullP1` entirely: the pass returns
`[cullP1]` with `cullP1` un-advanced (its `alpha` still 0.01) and
un-removed, although advancing it would have made it removable (second
conjunct). -/
theorem C4_cull_skips_successor_of_removed :
    cullPass 16 0 0 (fun _ => 0) [cullP0, cullP1] = [cullP1] ∧
    (cullP1.update 16 0 0 (fun _ => 0)).isDead = true := by
  constructor <;> norm_num [cullPass, cullPassAux, Particle.update,
    Particle.isDead, Particle.isOutOfBounds, cullP0, cullP1]

/-- C5: after any sequence of `calculateReaction` calls, with arbitrary
inputs, from the initial state or from a reset state: the history length
never exceeds the cap 40, its entries are strictly increasing in their `day`
field, and the days of the snapshots appended along the run are pairwise
strictly increasing — so at most one entry is ever appended per distinct day
value. -/
theorem C5_history_bounded_and_increasing (calls : List (ℚ × ℚ × ℚ × ℚ × ℚ))
    (s0 : ChemState) :
    ((runCalls calls initChem).history.length ≤ 40 ∧
     (runCalls calls initChem).history.Pairwise (fun a b => a.day < b.day) ∧
     (appendedDays calls initChem).Pairwise (fun a b : ℤ => a < b)) ∧
    ((runCalls calls s0.reset).history.length ≤ 40 ∧
     (runCalls calls s0.reset).history.Pairwise (fun a b => a.day < b.day) ∧
     (appendedDays calls s0.reset).Pairwise (fun a b : ℤ => a < b)) := by
  have hinv : HistInv initChem :=
    ⟨by simp [initChem], by simp [initChem], by simp [initChem]⟩
  have h1 := histInv_run calls initChem hinv
  have h2 := appendedDays_sorted calls initChem
  have hr : s0.reset = initChem := rfl
  rw [hr]
  exact ⟨⟨h1.1, h1.2.1, h2.2⟩, ⟨h1.1, h1.2.1, h2.2⟩⟩

/-- C6: one `calculateReaction` call with inputs in the declared control
ranges (flowRate > 0, concentration ≥ 0, real delta ≥ 0, speed > 0, and the
purity-mix control in its declared 0–100 range) never decreases any of
`totalFInput`, `totalFluoriteOutput`, `totalCaCl2Used`, `totalRevenue`,
`totalVariableCost`, `totalSavings`; hence along every sequence of such
calls each total is non-decreasing from one call to the next. -/
theorem C6_totals_monotone (flowRate ppmF dt speed rand : ℚ) (s : ChemState)
    (hfr : 0 < flowRate) (hppm : 0 ≤ ppmF) (hdt : 0 ≤ dt) (hsp : 0 < speed)
    (hpm0 : 0 ≤ s.purityMix) (hpm1 : s.purityMix ≤ 100) :
    s.totalFInput ≤ (calculateReaction flowRate ppmF dt speed rand s).1.totalFInput ∧
    s.totalFluoriteOutput ≤ (calculateReaction flowRate ppmF dt speed rand s).1.totalFluoriteOutput ∧
    s.totalCaCl2Used ≤ (calculateReaction flowRate ppmF dt speed rand s).1.totalCaCl2Used ∧
    s.totalRevenue ≤ (calculateReaction flowRate ppmF dt speed rand s).1.totalRevenue ∧
    s.totalVariableCost ≤ (calculateReaction flowRate ppmF dt speed rand s).1.totalVariableCost ∧
    s.totalSavings ≤ (calculateReaction flowRate ppmF dt speed rand s).1.totalSavings := by
  simp only [calculateReaction]
  set m := flowRate * ppmF / 3600 * (dt / 1000 * speed) * (4 * 3600) with hmdef
  have hm : 0 ≤ m := by
    rw [hmdef]
    exact mul_nonneg (mul_nonneg (div_nonneg (mul_nonneg hfr.le hppm) (by norm_num))
      (mul_nonneg (div_nonneg hdt (by norm_num)) hsp.le)) (by norm_num)
  have hw : 0 ≤ s.purityMix / 100 * PRICE_ACIDSPAR
      + (1 - s.purityMix / 100) * PRICE_METALSPAR := by
    rw [PRICE_ACIDSPAR, PRICE_METALSPAR]
    nlinarith
  have h2 : 0 ≤ m * F_TO_CAF2 := mul_nonneg hm (by norm_num [F_TO_CAF2])
  have h3 : 0 ≤ m * F_TO_CACL2 := mul_nonneg hm (by norm_num [F_TO_CACL2])
  have h4 : 0 ≤ m * F_TO_CAF2 / 1000000 *
      (s.purityMix / 100 * PRICE_ACIDSPAR + (1 - s.purityMix / 100) * PRICE_METALSPAR) :=
    mul_nonneg (div_nonneg h2 (by norm_num)) hw
  have h5 : 0 ≤ m * F_TO_CACL2 / 1000000 * COST_CACL2 :=
    mul_nonneg (div_nonneg h3 (by norm_num)) (by norm_num [COST_CACL2])
  have h6 : 0 ≤ m / 1000000 * AVOIDED_COST_LIME_SLUDGE :=
    mul_nonneg (div_nonneg hm (by norm_num)) (by norm_num [AVOIDED_COST_LIME_SLUDGE])
  exact ⟨by linarith, by linarith, by linarith, by linarith, by linarith, by linarith⟩

/-- C6 (witness): the six totals do not decrease across one concrete call
from the initial state with in-range inputs. -/
theorem C6_totals_monotone_witness :
    initChem.totalFInput ≤ (calculateReaction 450 50 1000 1 (1/2) initChem).1.totalFInput ∧
    initChem.totalFluoriteOutput ≤ (calculateReaction 450 50 1000 1 (1/2) initChem).1.totalFluoriteOutput ∧
    initChem.totalCaCl2Used ≤ (calculateReaction 450 50 1000 1 (1/2) initChem).1.totalCaCl2Used ∧
    initChem.totalRevenue ≤ (calculateReaction 450 50 1000 1 (1/2) initChem).1.totalRevenue ∧
    initChem.totalVariableCost ≤ (calculateReaction 450 50 1000 1 (1/2) initChem).1.totalVariableCost ∧
    initChem.totalSavings ≤ (calculateReaction 450 50 1000 1 (1/2) initChem).1.totalSavings :=
  C6_totals_monotone 450 50 1000 1 (1/2) initChem (by norm_num) (by norm_num)
    (by norm_num) (by norm_num) (by norm_num [initChem]) (by norm_num [initChem])

/-- C7: the rolling-window computation never divides by zero and never
faults: with at least 3 history entries and a positive day span the revenue
and profit deltas between the latest and the reference snapshot are rescaled
by `30 / actualSpan`; with a zero-day span the rescale update is skipped and
the window pair keeps the values it held before that update (its
initialization `(0, 0)`); with fewer than 3 entries and more than 0.01
simulated days the window values are extrapolated linearly as
`(cumulative total / cumulative simulated days) × 30`. -/
theorem C7_window_guarded_and_fallback (s : ChemState) :
    (2 < s.history.length → windowSpan s = 0 → window30 s = (0, 0)) ∧
    (2 < s.history.length → 0 < windowSpan s →
      window30 s =
        (((windowNow s).revenue - (windowPrev s).revenue) * (30 / ((windowSpan s : ℤ) : ℚ)),
         (((windowNow s).revenue - (windowNow s).cost + (windowNow s).savings) -
           ((windowPrev s).revenue - (windowPrev s).cost + (windowPrev s).savings)) *
           (30 / ((windowSpan s : ℤ) : ℚ)))) ∧
    (s.history.length ≤ 2 → (0.01 : ℚ) < totalDaysOf s →
      window30 s = ((s.totalRevenue / totalDaysOf s) * 30,
                    (netProfitOf s / totalDaysOf s) * 30)) := by
  refine ⟨?_, ?_, ?_⟩
  · intro hlen hspan
    unfold window30
    rw [if_pos hlen, if_neg (by omega)]
  · intro hlen hspan
    unfold window30
    rw [if_pos hlen, if_pos hspan]
  · intro hlen hd
    unfold window30
    rw [if_neg (by omega), if_pos hd]

/-- C7 (witness): the three branches at concrete states — a 3-entry history
with days 0, 1, 40 (zero-day span, window stays at its zeroed values), a
3-entry history with days 1, 2, 3 (two-day span, rescaled), and an empty
history after one simulated day (extrapolated). -/
theorem C7_window_guarded_and_fallback_witness :
    window30 stateSpan0 = (0, 0) ∧
    window30 stateSpan2 =
      (((windowNow stateSpan2).revenue - (windowPrev stateSpan2).revenue) *
         (30 / ((windowSpan stateSpan2 : ℤ) : ℚ)),
       (((windowNow stateSpan2).revenue - (windowNow stateSpan2).cost +
           (windowNow stateSpan2).savings) -
         ((windowPrev stateSpan2).revenue - (windowPrev stateSpan2).cost +
           (windowPrev stateSpan2).savings)) *
         (30 / ((windowSpan stateSpan2 : ℤ) : ℚ))) ∧
    window30 stateNoHist = ((stateNoHist.totalRevenue / totalDaysOf stateNoHist) * 30,
       (netProfitOf stateNoHist / totalDaysOf stateNoHist) * 30) :=
  ⟨(C7_window_guarded_and_fallback stateSpan0).1 (by norm_num [stateSpan0]) (by rfl),
   (C7_window_guarded_and_fallback stateSpan2).2.1 (by norm_num [stateSpan2]) (by decide),
   (C7_window_guarded_and_fallback stateNoHist).2.2 (by norm_num [stateNoHist])
     (by norm_num [totalDaysOf, stateNoHist])⟩

/-- C8: for every crystal particle whose `sedimenting` flag is set or whose
size has reached the maximum 6, after its next update and then any further
sequence of updates (any fluid velocities, centers, and time deltas) the
particle is in the sedimenting state at every step, and its size never
decreases: the transition is one-way for the rest of its lifetime. -/
theorem C8_sedimenting_one_way (p : Particle) (dt fv cy : ℚ) (f : ℚ → ℚ)
    (args : List (ℚ × ℚ × ℚ))
    (htype : p.type = PType.crystal)
    (hstart : p.sedimenting = true ∨ 6 ≤ p.size) :
    (applyUpdates args f (p.update dt fv cy f)).sedimenting = true ∧
    p.size ≤ (applyUpdates args f (p.update dt fv cy f)).size := by
  have h0 : (p.update dt fv cy f).sedimenting = true :=
    update_sed_absorbing p dt fv cy f htype hstart
  have h1 : (p.update dt fv cy f).type = PType.crystal := by
    rw [update_type]; exact htype
  have h := applyUpdates_sed args f (p.update dt fv cy f) h1 h0
  exact ⟨h.1, le_trans (update_size_mono p dt fv cy f) h.2.2⟩

/-- C8 (witness): a crystal at maximum size 6 with the flag still unset is
sedimenting after one update and after one more update, with size not
decreased. -/
theorem C8_sedimenting_one_way_witness :
    (applyUpdates [(16, 1, 0)] (fun _ => 0)
        (crystalMax.update 16 1 0 (fun _ => 0))).sedimenting = true ∧
    crystalMax.size ≤ (applyUpdates [(16, 1, 0)] (fun _ => 0)
        (crystalMax.update 16 1 0 (fun _ => 0))).size :=
  C8_sedimenting_one_way crystalMax 16 1 0 (fun _ => 0) [(16, 1, 0)] rfl
    (Or.inr (by norm_num [crystalMax]))

/-- C9: with the random perturbation replaced by zero (`Math.random() = 1/2`)
the pH update of `calculateReaction` relaxes `currentPH` toward the fixed
target 8.2: the signed distance shrinks by exactly the factor 9/10 each
step, so the absolute distance shrinks by the factor 9/10, strictly
decreases whenever the pH is off target, and the pH never crosses to the
other side of the target. -/
theorem C9_ph_relaxation_convergence (flowRate ppmF dt speed : ℚ) (s : ChemState) :
    ((8.2 : ℚ) - ((calculateReaction flowRate ppmF dt speed (1/2) s).1).currentPH
        = (9/10) * (8.2 - s.currentPH)) ∧
    (|((calculateReaction flowRate ppmF dt speed (1/2) s).1).currentPH - 8.2|
        = (9/10) * |s.currentPH - 8.2|) ∧
    (s.currentPH ≠ 8.2 →
      |((calculateReaction flowRate ppmF dt speed (1/2) s).1).currentPH - 8.2|
        < |s.currentPH - 8.2|) ∧
    (s.currentPH ≤ 8.2 →
      ((calculateReaction flowRate ppmF dt speed (1/2) s).1).currentPH ≤ 8.2) ∧
    (8.2 ≤ s.currentPH →
      8.2 ≤ ((calculateReaction flowRate ppmF dt speed (1/2) s).1).currentPH) := by
  rw [ph_next_eq]
  set d := s.currentPH with hd
  have h1 : (8.2 : ℚ) - (d + (8.2 - d) * (1/10)) = (9/10) * (8.2 - d) := by ring
  have h2 : (d + ((8.2 : ℚ) - d) * (1/10)) - 8.2 = (9/10) * (d - 8.2) := by ring
  refine ⟨h1, ?_, ?_, ?_, ?_⟩
  · rw [h2, abs_mul]; norm_num
  · intro hne
    rw [h2, abs_mul]
    have hp : 0 < |d - 8.2| := abs_pos.mpr (sub_ne_zero.mpr hne)
    calc |(9/10 : ℚ)| * |d - 8.2| = (9/10) * |d - 8.2| := by norm_num
    _ < |d - 8.2| := by linarith
  · intro hle; nlinarith
  · intro hge; nlinarith

/-- C9 (witness): from the initial pH 7 one zero-noise tick strictly shrinks
the distance to 8.2 and stays below the target; from pH 9 it stays above. -/
theorem C9_ph_relaxation_convergence_witness :
    (|((calculateReaction 450 50 1000 1 (1/2) initChem).1).currentPH - 8.2|
        < |initChem.currentPH - 8.2|) ∧
    (((calculateReaction 450 50 1000 1 (1/2) initChem).1).currentPH ≤ 8.2) ∧
    (8.2 ≤ ((calculateReaction 450 50 1000 1 (1/2) chemHighPH).1).currentPH) :=
  ⟨(C9_ph_relaxation_convergence 450 50 1000 1 initChem).2.2.1 (by norm_num [initChem]),
   (C9_ph_relaxation_convergence 450 50 1000 1 initChem).2.2.2.1 (by norm_num [initChem]),
   (C9_ph_relaxation_convergence 450 50 1000 1 chemHighPH).2.2.2.2
     (by norm_num [chemHighPH, initChem])⟩

/-- C10: the very first `calculateReaction` call after construction or after
`reset()` (which restores exactly the constructed state) always appends a
snapshot, for any nonnegative real delta and speed: `lastSnapshotDay` starts
at −1 while the current day index is at least 0.  In particular, when the
first tick advances simulated time by less than one day the single recorded
snapshot has `day = 0`. -/
theorem C10_first_tick_snapshot (flowRate ppmF dt speed rand : ℚ) (s0 : ChemState)
    (hdt : 0 ≤ dt) (hsp : 0 ≤ speed) :
    s0.reset = initChem ∧
    (calculateReaction flowRate ppmF dt speed rand initChem).1.history.length = 1 ∧
    0 ≤ ((calculateReaction flowRate ppmF dt speed rand initChem).1.history.headD default).day ∧
    ((calculateReaction flowRate ppmF dt speed rand initChem).1.simTimeMs
        < 1000 * 24 * 3600 →
      ((calculateReaction flowRate ppmF dt speed rand initChem).1.history.headD default).day
        = 0) := by
  refine ⟨rfl, ?_⟩
  simp only [calculateReaction, initChem]
  norm_num
  have hnn : (0:ℚ) ≤ dt / 1000 * speed * 14400 * 1000 :=
    mul_nonneg (mul_nonneg (mul_nonneg (div_nonneg hdt (by norm_num)) hsp)
      (by norm_num)) (by norm_num)
  have hfl : (0:ℤ) ≤ ⌊dt / 1000 * speed * 14400 * 1000 / (86400000:ℚ)⌋ :=
    Int.floor_nonneg.mpr (div_nonneg hnn (by norm_num))
  have hlt : (-1:ℤ) < ⌊dt / 1000 * speed * 14400 * 1000 / (86400000:ℚ)⌋ := by omega
  rw [if_pos hlt]
  refine ⟨rfl, ?_, ?_⟩
  · simpa using hfl
  · intro hless
    have h0 : ⌊dt / 1000 * speed * 14400 * 1000 / (86400000:ℚ)⌋ = 0 := by
      rw [Int.floor_eq_zero_iff]
      exact ⟨div_nonneg hnn (by norm_num), by rw [div_lt_one (by norm_num)]; exact hless⟩
    simp [h0]

/-- C10 (witness): a concrete first tick of 1000 ms at speed 1 (4 simulated
hours) records exactly one snapshot, with day 0. -/
theorem C10_first_tick_snapshot_witness :
    initChem.reset = initChem ∧
    (calculateReaction 450 50 1000 1 (1/2) initChem).1.history.length = 1 ∧
    0 ≤ ((calculateReaction 450 50 1000 1 (1/2) initChem).1.history.headD default).day ∧
    ((calculateReaction 450 50 1000 1 (1/2) initChem).1.simTimeMs
        < 1000 * 24 * 3600 →
      ((calculateReaction 450 50 1000 1 (1/2) initChem).1.history.headD default).day
        = 0) :=
  C10_first_tick_snapshot 450 50 1000 1 (1/2) initChem (by norm_num) (by norm_num)

end RCLF
